import Mathlib

/-!
Verification of the `get-last-error` crate (src/lib.rs): a wrapper type
`Win32Error` over a Win32 `DWORD` error code, its Display rendering via
`FormatMessageW`, and its conversions to and from `std::io::Error`.

Modelling choices (shallow embedding):
  * `DWORD` (`u32`) is a `Nat`; where the 32-bit bound matters it appears as an
    explicit hypothesis `n < 2 ^ 32` or an explicit reduction `% 2 ^ 32`.
  * UTF-16 code units (`u16`) and Unicode scalar values (`char`) are `Nat`s
    holding the numeric value.
  * The OS call `FormatMessageW` is outside the crate: the list `units` of code
    units it wrote (empty when it returned 0) is a parameter of the rendering
    function.
  * The `fmt::Formatter` sink is a `Sink ε`: for each successive `write_char`
    call (numbered from 0) it either accepts the write (`none`) or rejects it
    with an error value (`some e`), which the rendering propagates verbatim,
    mirroring the `?` operator on `f.write_char(*c)?`.
-/

deriving instance DecidableEq for Except

namespace GetLastError

/-- `pub struct Win32Error(DWORD)` (src/lib.rs line 78). -/
structure Win32Error where
  code : Nat
deriving DecidableEq, Repr

/-- `Win32Error::new` (src/lib.rs lines 83-85): wraps an arbitrary `DWORD`. -/
def Win32Error.new (code : Nat) : Win32Error :=
  ⟨code⟩

/-- `impl From<DWORD> for Win32Error` (src/lib.rs lines 100-104). -/
def Win32Error.fromDWORD (other : Nat) : Win32Error :=
  Win32Error.new other

/-- `impl From<Win32Error> for DWORD` (src/lib.rs lines 106-110). -/
def Win32Error.toDWORD (other : Win32Error) : Nat :=
  other.code

/-- UTF-16 high (leading) surrogate test, as in Rust's `char::decode_utf16`. -/
def isHighSurrogate (u : Nat) : Bool :=
  0xD800 ≤ u && u ≤ 0xDBFF

/-- UTF-16 low (trailing) surrogate test, as in Rust's `char::decode_utf16`. -/
def isLowSurrogate (u : Nat) : Bool :=
  0xDC00 ≤ u && u ≤ 0xDFFF

/-- Scalar value of a valid UTF-16 surrogate pair. -/
def combineSurrogates (u1 u2 : Nat) : Nat :=
  0x10000 + (u1 - 0xD800) * 0x400 + (u2 - 0xDC00)

/-- Rust's `char::decode_utf16` iterator (used at src/lib.rs line 138) as a
list transformer: `Except.ok` is `Ok(char)`, `Except.error u` is
`Err(DecodeUtf16Error)` for the single unpaired unit `u`.  A high surrogate
pairs with an immediately following low surrogate; a lone high surrogate or a
lone low surrogate yields one error consuming exactly that one unit. -/
def decode_utf16 : List Nat → List (Except Nat Nat)
  | [] => []
  | [u] =>
    if isHighSurrogate u || isLowSurrogate u then [Except.error u] else [Except.ok u]
  | u1 :: u2 :: rest =>
    if isHighSurrogate u1 then
      if isLowSurrogate u2 then
        Except.ok (combineSurrogates u1 u2) :: decode_utf16 rest
      else
        Except.error u1 :: decode_utf16 (u2 :: rest)
    else if isLowSurrogate u1 then
      Except.error u1 :: decode_utf16 (u2 :: rest)
    else
      Except.ok u1 :: decode_utf16 (u2 :: rest)

/-- The `char_iter` of src/lib.rs lines 138-139:
`char::decode_utf16(...).map(|r| r.unwrap_or(char::REPLACEMENT_CHARACTER))`,
where `char::REPLACEMENT_CHARACTER` is U+FFFD. -/
def decodeUtf16Lossy (units : List Nat) : List Nat :=
  (decode_utf16 units).map fun r =>
    match r with
    | Except.ok c => c
    | Except.error _ => 0xFFFD

/-- Rust's `char::is_whitespace` (used at src/lib.rs lines 148 and 151): the
Unicode `White_Space` property, on scalar values. -/
def is_whitespace (c : Nat) : Bool :=
  (0x09 ≤ c && c ≤ 0x0D) || c == 0x20 || c == 0x85 || c == 0xA0 || c == 0x1680 ||
    (0x2000 ≤ c && c ≤ 0x200A) || c == 0x2028 || c == 0x2029 || c == 0x202F ||
    c == 0x205F || c == 0x3000

/-- Rust's `Iterator::position`: index of the first element satisfying `p`. -/
def position (p : Nat → Bool) (l : List Nat) : Option Nat :=
  l.findIdx? p

/-- Rust's `Iterator::rposition`: index (counted from the front) of the last
element satisfying `p`. -/
def rposition (p : Nat → Bool) (l : List Nat) : Option Nat :=
  match l.reverse.findIdx? p with
  | none => none
  | some i => some (l.length - 1 - i)

/-- One uppercase hexadecimal digit character for a value `d < 16`. -/
def toUpperHexDigit (d : Nat) : Nat :=
  if d < 10 then 0x30 + d else 0x41 + (d - 10)

/-- Uppercase hexadecimal digits of `n`, most significant first, no leading
zeros, empty for 0.  Fuel-based so that it reduces definitionally; 16 units of
fuel cover every value below `16 ^ 16`, far beyond the `u32` range. -/
def upperHexDigitsAux : Nat → Nat → List Nat
  | 0, _ => []
  | fuel + 1, n =>
    if n = 0 then [] else upperHexDigitsAux fuel (n / 16) ++ [toUpperHexDigit (n % 16)]

/-- Uppercase hexadecimal digit characters of `n` (at least one digit). -/
def upperHexDigits (n : Nat) : List Nat :=
  if n = 0 then [0x30] else upperHexDigitsAux 16 n

/-- The character sequence produced by `write!(f, "{:#08X}", self.0)`
(src/lib.rs line 132): `0x`, then the uppercase hex digits of `n`, zero-padded
on the left so that the TOTAL width, the two prefix characters included, is at
least 8 (Rust's `0` flag with `#` counts the prefix against the width). -/
def formatAltHex8 (n : Nat) : List Nat :=
  let ds := upperHexDigits n
  0x30 :: 0x78 :: (List.replicate (8 - (2 + ds.length)) 0x30 ++ ds)

/-- A formatter sink: the result of the `k`-th `write_char` call, `none` when
the write is accepted and `some e` when the sink rejects it with error `e`. -/
structure Sink (ε : Type) where
  write : Nat → Option ε

/-- Writing a list of scalar values to the sink one at a time starting with
write number `k`, stopping at the first rejected write (the `?` on
`f.write_char(*c)?`, src/lib.rs line 154).  Returns the values actually
written and the propagated sink error, if any. -/
def runWrites {ε : Type} (s : Sink ε) : Nat → List Nat → List Nat × Option ε
  | _, [] => ([], none)
  | k, c :: cs =>
    match s.write k with
    | some e => ([], some e)
    | none => ((runWrites s (k + 1) cs).1.cons c, (runWrites s (k + 1) cs).2)

/-- `impl Display for Win32Error`, `fn fmt` (src/lib.rs lines 112-160).
`units` is the content `FormatMessageW` wrote into the 1024-unit buffer
(`len = units.length`, and `len == 0` signals lookup failure).  If `len == 0`
the raw code is written as `{:#08X}`; otherwise the units are decoded
lossily, collected, trimmed with `position`/`rposition` of the first and last
non-whitespace scalar, and the slice `[start, stop)` is written. -/
def Win32Error.fmt {ε : Type} (x : Win32Error) (units : List Nat) (s : Sink ε) :
    List Nat × Option ε :=
  if units.length == 0 then
    runWrites s 0 (formatAltHex8 x.code)
  else
    let chars := decodeUtf16Lossy units
    let start := (position (fun c => !is_whitespace c) chars).getD 0
    let stop := (rposition (fun c => !is_whitespace c) chars).getD chars.length
    runWrites s 0 ((chars.drop start).take (stop - start))

/-- The full list of scalar values `Win32Error.fmt` attempts to write (what an
always-accepting sink receives). -/
def plannedOutput (x : Win32Error) (units : List Nat) : List Nat :=
  if units.length == 0 then
    formatAltHex8 x.code
  else
    let chars := decodeUtf16Lossy units
    let start := (position (fun c => !is_whitespace c) chars).getD 0
    let stop := (rposition (fun c => !is_whitespace c) chars).getD chars.length
    (chars.drop start).take (stop - start)

/-- Modelled from the spec: the trimming step as the specification words it,
with `stop` equal to ONE PAST the index of the last non-whitespace scalar
(full length when all are whitespace).  Compare `Win32Error.fmt`, whose `stop`
is the index itself. -/
def trimmedSliceSpec (chars : List Nat) : List Nat :=
  let start := (position (fun c => !is_whitespace c) chars).getD 0
  let stop :=
    match rposition (fun c => !is_whitespace c) chars with
    | some i => i + 1
    | none => chars.length
  (chars.drop start).take (stop - start)

/-- A sink that accepts every write. -/
def sinkAllOk : Sink Unit :=
  ⟨fun _ => none⟩

/-- A sink that rejects exactly write number 1. -/
def sinkRejectSecond : Sink Unit :=
  ⟨fun k => if k = 1 then some () else none⟩

/-- `pub struct TryFromIoError` (src/lib.rs line 168). -/
structure TryFromIoError where
deriving DecidableEq, Repr

/-- The part of `std::io::Error` this crate looks at: `raw_os_error()` returns
`Some` of the raw `i32` OS code exactly when the error was built from one. -/
structure IoError where
  raw_os_error : Option Int
deriving DecidableEq, Repr

/-- Rust's `as` cast from `i32` to `u32` (the `code as _` at src/lib.rs line
189): two's-complement reinterpretation, valid on the `i32` range. -/
def u32_of_i32 (i : Int) : Nat :=
  if 0 ≤ i then i.toNat else (i + 2 ^ 32).toNat

/-- Rust's `as` cast from `u32` to `i32` (the `err.code() as _` at src/lib.rs
line 196): two's-complement reinterpretation, valid on the `u32` range. -/
def i32_of_u32 (n : Nat) : Int :=
  if n < 2 ^ 31 then (n : Int) else (n : Int) - 2 ^ 32

/-- `impl TryFrom<io::Error> for Win32Error` (src/lib.rs lines 184-191):
`err.raw_os_error().map_or_else(|| Err(TryFromIoError), |code| Ok(Self::new(code as _)))`. -/
def Win32Error.tryFromIoError (err : IoError) : Except TryFromIoError Win32Error :=
  match err.raw_os_error with
  | none => Except.error ⟨⟩
  | some code => Except.ok (Win32Error.new (u32_of_i32 code))

/-- `impl From<Win32Error> for io::Error` (src/lib.rs lines 194-198):
`Self::from_raw_os_error(err.code() as _)` — an `io::Error` whose
`raw_os_error()` is `Some` of that cast code. -/
def IoError.fromWin32Error (err : Win32Error) : IoError :=
  ⟨some (i32_of_u32 err.code)⟩

/-- Specification-level description of one lossy UTF-16 decoding step, used to
state that every code unit or surrogate pair that does not form a valid scalar
value yields exactly one U+FFFD: a non-surrogate unit yields itself, a high
surrogate followed by a low surrogate yields the combined scalar, and a lone
low surrogate or a high surrogate not followed by a low one yields exactly one
replacement character for that single unit. -/
inductive LossyDecodeSpec : List Nat → List Nat → Prop where
  | nil : LossyDecodeSpec [] []
  | valid_single {u : Nat} {rest out : List Nat} :
      isHighSurrogate u = false → isLowSurrogate u = false →
      LossyDecodeSpec rest out → LossyDecodeSpec (u :: rest) (u :: out)
  | valid_pair {u1 u2 : Nat} {rest out : List Nat} :
      isHighSurrogate u1 = true → isLowSurrogate u2 = true →
      LossyDecodeSpec rest out →
      LossyDecodeSpec (u1 :: u2 :: rest) (combineSurrogates u1 u2 :: out)
  | lone_low {u : Nat} {rest out : List Nat} :
      isLowSurrogate u = true →
      LossyDecodeSpec rest out → LossyDecodeSpec (u :: rest) (0xFFFD :: out)
  | lone_high {u : Nat} {rest out : List Nat} :
      isHighSurrogate u = true →
      (∀ u2 rest2, rest = u2 :: rest2 → isLowSurrogate u2 = false) →
      LossyDecodeSpec rest out → LossyDecodeSpec (u :: rest) (0xFFFD :: out)

/-! ## Helper lemmas -/

/-- `Win32Error.fmt` writes exactly the `plannedOutput` list through `runWrites`. -/
theorem fmt_eq_planned {ε : Type} (x : Win32Error) (units : List Nat) (s : Sink ε) :
    Win32Error.fmt x units s = runWrites s 0 (plannedOutput x units) := by
  by_cases h : units.length = 0 <;>
    simp [Win32Error.fmt, plannedOutput, h]

/-- `runWrites` succeeds exactly when every attempted write is accepted. -/
theorem runWrites_snd_none_iff {ε : Type} (s : Sink ε) :
    ∀ (cs : List Nat) (k0 : Nat),
      (runWrites s k0 cs).2 = none ↔ ∀ j, j < cs.length → s.write (k0 + j) = none
  | [], k0 => by simp [runWrites]
  | c :: cs, k0 => by
    have ih := runWrites_snd_none_iff s cs (k0 + 1)
    cases hw : s.write k0 with
    | some e =>
      simp only [runWrites, hw, List.length_cons]
      constructor
      · intro h
        cases h
      · intro h
        have h0 := h 0 (by omega)
        rw [Nat.add_zero, hw] at h0
        cases h0
    | none =>
      simp only [runWrites, hw, List.length_cons]
      rw [ih]
      constructor
      · intro h j hj
        cases j with
        | zero => simpa using hw
        | succ j =>
          have hh := h j (by omega)
          rw [show k0 + (j + 1) = k0 + 1 + j by omega]
          exact hh
      · intro h j hj
        have hh := h (j + 1) (by omega)
        rw [show k0 + 1 + j = k0 + (j + 1) by omega]
        exact hh

/-- When writes `k0 + 0 .. k0 + j - 1` are accepted and write `k0 + j` is
rejected with `e`, `runWrites` stops there: it has written the first `j`
values and propagates `e` verbatim. -/
theorem runWrites_reject {ε : Type} (s : Sink ε) :
    ∀ (cs : List Nat) (k0 j : Nat) (e : ε),
      j < cs.length → (∀ i, i < j → s.write (k0 + i) = none) →
      s.write (k0 + j) = some e →
      runWrites s k0 cs = (cs.take j, some e)
  | [], _, j, e, hj, _, _ => by simp at hj
  | c :: cs, k0, 0, e, _, _, he => by
    rw [Nat.add_zero] at he
    simp [runWrites, he]
  | c :: cs, k0, j + 1, e, hj, hpre, he => by
    have h0 : s.write k0 = none := by
      have hh := hpre 0 (Nat.succ_pos j)
      rwa [Nat.add_zero] at hh
    have ih := runWrites_reject s cs (k0 + 1) j e
      (by simpa using hj)
      (fun i hi => by
        have hh := hpre (i + 1) (by omega)
        rwa [show k0 + (i + 1) = k0 + 1 + i by omega] at hh)
      (by rwa [show k0 + (j + 1) = k0 + 1 + j by omega] at he)
    simp [runWrites, h0, ih]

/-- The always-accepting sink receives the whole list. -/
theorem runWrites_allOk : ∀ (cs : List Nat) (k : Nat),
    runWrites sinkAllOk k cs = (cs, none)
  | [], _ => rfl
  | c :: cs, k => by
    have hw : sinkAllOk.write k = none := rfl
    simp [runWrites, hw, runWrites_allOk cs (k + 1)]

/-- UTF-16 decoding yields at most one item per input code unit. -/
theorem decode_utf16_length_le :
    ∀ units : List Nat, (decode_utf16 units).length ≤ units.length
  | [] => Nat.le_refl 0
  | [u] => by
    simp only [decode_utf16]
    split <;> simp
  | u1 :: u2 :: rest => by
    have ih1 := decode_utf16_length_le rest
    have ih2 := decode_utf16_length_le (u2 :: rest)
    simp only [decode_utf16, List.length_cons] at ih2 ⊢
    split
    · split <;> simp <;> omega
    · split <;> simp <;> omega

/-- The lossy decoding of the source satisfies the specification-level
step description `LossyDecodeSpec`. -/
theorem decode_lossy_meets_spec :
    ∀ units : List Nat, LossyDecodeSpec units (decodeUtf16Lossy units)
  | [] => by
    simp only [decodeUtf16Lossy, decode_utf16, List.map_nil]
    exact LossyDecodeSpec.nil
  | [u] => by
    cases h1 : isHighSurrogate u with
    | true =>
      simp only [decodeUtf16Lossy, decode_utf16, h1, Bool.true_or, if_true,
        List.map_cons, List.map_nil]
      exact LossyDecodeSpec.lone_high h1 (fun u2 rest2 h => nomatch h) LossyDecodeSpec.nil
    | false =>
      cases h2 : isLowSurrogate u with
      | true =>
        simp only [decodeUtf16Lossy, decode_utf16, h1, h2, Bool.false_or, if_true,
          List.map_cons, List.map_nil]
        exact LossyDecodeSpec.lone_low h2 LossyDecodeSpec.nil
      | false =>
        simp only [decodeUtf16Lossy, decode_utf16, h1, h2, Bool.false_or, if_false,
          List.map_cons, List.map_nil]
        exact LossyDecodeSpec.valid_single h1 h2 LossyDecodeSpec.nil
  | u1 :: u2 :: rest => by
    have ih1 := decode_lossy_meets_spec rest
    have ih2 := decode_lossy_meets_spec (u2 :: rest)
    cases h1 : isHighSurrogate u1 with
    | true =>
      cases h2 : isLowSurrogate u2 with
      | true =>
        simp only [decodeUtf16Lossy, decode_utf16, h1, h2, if_true, List.map_cons]
        exact LossyDecodeSpec.valid_pair h1 h2 ih1
      | false =>
        simp only [decodeUtf16Lossy, decode_utf16, h1, h2, if_true, if_false,
          List.map_cons]
        exact LossyDecodeSpec.lone_high h1
          (fun a b hab => by
            injection hab with ha hb
            subst ha
            exact h2)
          ih2
    | false =>
      cases h2 : isLowSurrogate u1 with
      | true =>
        simp only [decodeUtf16Lossy, decode_utf16, h1, h2, if_true, if_false,
          List.map_cons]
        exact LossyDecodeSpec.lone_low h2 ih2
      | false =>
        simp only [decodeUtf16Lossy, decode_utf16, h1, h2, if_false, List.map_cons]
        exact LossyDecodeSpec.valid_single h1 h2 ih2

/-! ## Claim theorems -/

/-- Claim C1 (code bug exhibit): the Display rendering does NOT write the
range `[start, end)` with `end` one past the last non-whitespace scalar.  On
the decoded message `"ab"` (code units 0x61 0x62) the source computes
`end = rposition = 1`, the index OF the last non-whitespace scalar, and writes
only `"a"`, dropping the final non-whitespace scalar — while the trimming
described by the specification keeps the full `"ab"`. -/
theorem display_drops_last_nonwhitespace_scalar :
    Win32Error.fmt (Win32Error.new 0) [0x61, 0x62] sinkAllOk = ([0x61], none)
    ∧ trimmedSliceSpec (decodeUtf16Lossy [0x61, 0x62]) = [0x61, 0x62] := by
  decide

/-- Claim C2 (code bug exhibit): a non-empty all-whitespace message is NOT
rendered as the empty string.  On the single-space message (code unit 0x20)
both `position` and `rposition` find nothing, so `start` defaults to 0 and
`end` defaults to the full length, and the whole whitespace string is written
to the sink. -/
theorem display_whitespace_only_message_is_echoed :
    is_whitespace 0x20 = true
    ∧ Win32Error.fmt (Win32Error.new 0) [0x20] sinkAllOk = ([0x20], none) := by
  decide

/-- Claim C3 (code bug exhibit): the hex fallback `write!(f, "{:#08X}", code)`
zero-pads to a TOTAL width of 8 counting the `0x` prefix, not to 8 hex
digits.  Code 0x1234ABC renders as `0x1234ABC` (7 digits, 9 characters) and
code 5 renders as `0x000005` (6 digits), not `0x01234ABC` / `0x00000005`. -/
theorem display_hex_fallback_total_width_8 :
    Win32Error.fmt (Win32Error.new 0x1234ABC) [] sinkAllOk
        = ([0x30, 0x78, 0x31, 0x32, 0x33, 0x34, 0x41, 0x42, 0x43], none)
    ∧ (Win32Error.fmt (Win32Error.new 0x1234ABC) [] sinkAllOk).1.length = 9
    ∧ Win32Error.fmt (Win32Error.new 5) [] sinkAllOk
        = ([0x30, 0x78, 0x30, 0x30, 0x30, 0x30, 0x30, 0x35], none) := by
  decide

/-- Claim C4: the Display rendering fails exactly when the sink rejects one of
the attempted writes; at the first rejected write the sink's error is returned
verbatim with exactly the preceding values written; and a zero-length
`FormatMessageW` result is never an error by itself — with an accepting sink
it produces the hex fallback output and `Ok(())`. -/
theorem display_error_iff_sink_rejects {ε : Type} (x : Win32Error)
    (units : List Nat) (s : Sink ε) :
    ((Win32Error.fmt x units s).2 = none ↔
      ∀ k, k < (plannedOutput x units).length → s.write k = none)
    ∧ (∀ j e, j < (plannedOutput x units).length → (∀ i, i < j → s.write i = none) →
        s.write j = some e →
        Win32Error.fmt x units s = ((plannedOutput x units).take j, some e))
    ∧ (units = [] → Win32Error.fmt x units sinkAllOk = (formatAltHex8 x.code, none)) := by
  refine ⟨?_, ?_, ?_⟩
  · rw [fmt_eq_planned x units s, runWrites_snd_none_iff s (plannedOutput x units) 0]
    simp
  · intro j e hj hpre he
    rw [fmt_eq_planned x units s]
    exact runWrites_reject s (plannedOutput x units) 0 j e hj
      (fun i hi => by rw [Nat.zero_add]; exact hpre i hi)
      (by rw [Nat.zero_add]; exact he)
  · intro h
    subst h
    rw [fmt_eq_planned x [] sinkAllOk, runWrites_allOk]
    rfl

/-- Witness for C4: with a sink that rejects exactly write number 1, a
zero-length message renders the hex fallback up to the rejected write and
propagates the sink error. -/
theorem display_error_iff_sink_rejects_witness :
    Win32Error.fmt (Win32Error.new 3) ([] : List Nat) sinkRejectSecond
      = ((plannedOutput (Win32Error.new 3) []).take 1, some ()) :=
  (display_error_iff_sink_rejects (Win32Error.new 3) [] sinkRejectSecond).2.1 1 ()
    (by decide) (by decide) (by decide)

/-- Claim C5: `TryFrom<io::Error>` fails with `TryFromIoError` exactly when the
`io::Error` carries no raw OS code, and otherwise returns `Ok` of a
`Win32Error` wrapping the contained code (cast `i32` to `u32`); the conversion
is a total function with a single error value, so no other error kind and no
panic can result. -/
theorem tryFrom_io_error_no_raw_code (err : IoError) :
    (Win32Error.tryFromIoError err = Except.error ⟨⟩ ↔ err.raw_os_error = none)
    ∧ ∀ c, err.raw_os_error = some c →
        Win32Error.tryFromIoError err = Except.ok (Win32Error.new (u32_of_i32 c)) := by
  cases h : err.raw_os_error with
  | none =>
    refine ⟨?_, ?_⟩
    · simp [Win32Error.tryFromIoError, h]
    · intro c hc
      simp at hc
  | some c0 =>
    refine ⟨?_, ?_⟩
    · simp [Win32Error.tryFromIoError, h]
    · intro c hc
      injection hc with hc'
      subst hc'
      simp [Win32Error.tryFromIoError, h]

/-- Witness for C5: an io error carrying raw code 7 converts to
`Ok(Win32Error::new(7))`. -/
theorem tryFrom_io_error_no_raw_code_witness :
    (⟨some 7⟩ : IoError).raw_os_error = some 7
    ∧ Win32Error.tryFromIoError ⟨some 7⟩
        = Except.ok (Win32Error.new (u32_of_i32 7)) :=
  ⟨rfl, (tryFrom_io_error_no_raw_code ⟨some 7⟩).2 7 rfl⟩

/-- Claim C6: the lossy UTF-16 decode step of the rendering satisfies the
specification-level relation: every code unit or surrogate pair that does not
form a valid Unicode scalar value yields exactly one U+FFFD replacement
character, and the decode step is a total function — it never fails. -/
theorem decode_invalid_units_become_replacement (units : List Nat) :
    LossyDecodeSpec units (decodeUtf16Lossy units) :=
  decode_lossy_meets_spec units

/-- Claim C7: under the `FormatMessageW` bound of at most 1024 code units, the
decoded scalar sequence is never longer than the unit sequence, hence fits the
1024-element `char_buf`, so every index written during collection is in
bounds. -/
theorem decoded_scalars_within_capacity (units : List Nat)
    (h : units.length ≤ 1024) :
    (decodeUtf16Lossy units).length ≤ units.length
    ∧ (decodeUtf16Lossy units).length ≤ 1024 := by
  have hl := decode_utf16_length_le units
  have hm : (decodeUtf16Lossy units).length = (decode_utf16 units).length := by
    simp [decodeUtf16Lossy]
  exact ⟨by omega, by omega⟩

/-- Witness for C7: a one-unit message decodes to at most one scalar, within
the 1024 capacity. -/
theorem decoded_scalars_within_capacity_witness :
    ([0x41] : List Nat).length ≤ 1024
    ∧ (decodeUtf16Lossy [0x41]).length ≤ 1024 :=
  ⟨by decide, (decoded_scalars_within_capacity [0x41] (by decide)).2⟩

/-- Claim C8: the `From` conversions between the raw `DWORD` and `Win32Error`
are mutually inverse: for every 32-bit value `n`, `n → Win32Error → DWORD`
returns `n`, and `Win32Error::new(n) → DWORD → Win32Error` returns the same
`Win32Error`. -/
theorem dword_conversions_mutually_inverse (n : Nat) (_h : n < 2 ^ 32) :
    Win32Error.toDWORD (Win32Error.fromDWORD n) = n
    ∧ Win32Error.fromDWORD (Win32Error.toDWORD (Win32Error.new n))
        = Win32Error.new n :=
  ⟨rfl, rfl⟩

/-- Witness for C8: the round trips at the concrete 32-bit value 7. -/
theorem dword_conversions_mutually_inverse_witness :
    (7 : Nat) < 2 ^ 32
    ∧ (Win32Error.toDWORD (Win32Error.fromDWORD 7) = 7
       ∧ Win32Error.fromDWORD (Win32Error.toDWORD (Win32Error.new 7))
           = Win32Error.new 7) :=
  ⟨by decide, dword_conversions_mutually_inverse 7 (by decide)⟩

/-- Claim C9: converting `Win32Error::new(5)` into an `io::Error` (always
possible, built from the raw code) and back through `TryFrom` yields
`Ok(Win32Error::new(5))`. -/
theorem io_error_round_trip_five :
    Win32Error.tryFromIoError (IoError.fromWin32Error (Win32Error.new 5))
      = Except.ok (Win32Error.new 5) := by
  decide

/-- Claim C10: an `io::Error` whose raw OS code is a negative `i32` is
accepted by `TryFrom` (not rejected with `TryFromIoError`), and the resulting
code is the two's-complement reinterpretation, i.e. the raw value reduced
modulo `2 ^ 32`; consequently the io round trip restores every 32-bit code,
not only the non-negative ones. -/
theorem negative_raw_os_error_wraps (i : Int) (n : Nat)
    (h1 : -(2 ^ 31) ≤ i) (h2 : i < 0) (h3 : n < 2 ^ 32) :
    Win32Error.tryFromIoError ⟨some i⟩
        = Except.ok (Win32Error.new (i % 2 ^ 32).toNat)
    ∧ Win32Error.tryFromIoError (IoError.fromWin32Error (Win32Error.new n))
        = Except.ok (Win32Error.new n) := by
  constructor
  · have hu : u32_of_i32 i = (i % 2 ^ 32).toNat := by
      unfold u32_of_i32
      split <;> omega
    simp [Win32Error.tryFromIoError, hu]
  · have hu : u32_of_i32 (i32_of_u32 n) = n := by
      unfold u32_of_i32 i32_of_u32
      split <;> split <;> omega
    show Win32Error.tryFromIoError ⟨some (i32_of_u32 n)⟩ = _
    simp [Win32Error.tryFromIoError, hu]

/-- Witness for C10: raw code −1 converts to `Win32Error::new(0xFFFFFFFF)`,
and the io round trip restores the 32-bit code 0xFFFFFFFF. -/
theorem negative_raw_os_error_wraps_witness :
    (-(2 ^ 31) : Int) ≤ -1 ∧ (-1 : Int) < 0 ∧ (4294967295 : Nat) < 2 ^ 32
    ∧ (Win32Error.tryFromIoError ⟨some (-1)⟩
          = Except.ok (Win32Error.new ((-1 : Int) % 2 ^ 32).toNat)
       ∧ Win32Error.tryFromIoError (IoError.fromWin32Error (Win32Error.new 4294967295))
          = Except.ok (Win32Error.new 4294967295)) :=
  ⟨by decide, by decide, by decide,
    negative_raw_os_error_wraps (-1) 4294967295 (by decide) (by decide) (by decide)⟩

end GetLastError
